import Mathlib

/-!
Verification of the aiida-aenet serialization layer: a shallow embedding of
the descriptor/input-file generation code (`calculations/generate.py`,
`data/algorithm.py`) and of the output parsers (`parsers/train.py`,
`parsers/predict.py`), together with theorems settling the specification
claims about them.

Python values are modelled by the dynamic type `PyVal`; Python dictionaries
by insertion-ordered association lists (`PyDict`), matching CPython's
insertion-ordered `dict`; file text by `String`, lines kept as the Python
code sees them (including a trailing newline where `readlines` keeps one).
-/

/-- Dynamic Python value: the value kinds the modelled code actually builds.
`tup1` models a Python 1-tuple, the only tuple shape the code constructs
(through the trailing comma in `Rc = parameters["cutoff"],`). -/
inductive PyVal where
  | int : Int → PyVal
  | float : Rat → PyVal
  | str : String → PyVal
  | bool : Bool → PyVal
  | tup1 : PyVal → PyVal
  deriving DecidableEq, Repr

/-- Digits of the fractional part num/den by decimal long division, stopping
when the remainder vanishes or the fuel runs out. -/
def fracDigits (num den : Nat) : Nat → List Char
  | 0 => []
  | fuel + 1 =>
    if num = 0 then []
    else
      let n10 := num * 10
      Char.ofNat (48 + n10 / den) :: fracDigits (n10 % den) den fuel

/-- Rendering of a (decimal-exact) Python float by `str`/`repr`: integer
part, a dot, and the fractional digits, with a single `0` when the value is
integral (`str(4.0) = "4.0"`). -/
def floatRepr (q : Rat) : String :=
  let sign := if q.num < 0 then "-" else ""
  let na := q.num.natAbs
  let ip := na / q.den
  let ds := fracDigits (na % q.den) q.den 30
  sign ++ toString ip ++ "." ++ (if ds.isEmpty then "0" else String.mk ds)

/-- Python `str()` of a modelled value.  For `tup1` the element is rendered
with the same function; the code only ever puts a float inside a tuple, and
for floats Python's `repr` (used inside tuples) agrees with `str`. -/
def pyStr : PyVal → String
  | .int n => toString n
  | .float q => floatRepr q
  | .str s => s
  | .bool b => if b then "True" else "False"
  | .tup1 v => "(" ++ pyStr v ++ ",)"

/-- Insertion-ordered Python dictionary with string keys. -/
abbrev PyDict : Type := List (String × PyVal)

/-- Python `d[k]` lookup: the first (and only) binding of the key. -/
def dictGet (d : PyDict) (k : String) : Option PyVal :=
  match d with
  | [] => none
  | (k', v) :: rest => if k' = k then some v else dictGet rest k

/-- Python `d.setdefault(k, v)`: return the existing value when the key is
present, otherwise insert the default at the end (CPython appends new keys
in insertion order) and return it.  The returned dictionary is the mutated
state of the argument. -/
def dictSetdefault (d : PyDict) (k : String) (v : PyVal) : PyVal × PyDict :=
  match dictGet d k with
  | some w => (w, d)
  | none => (v, d ++ [(k, v)])

/-- Spaces string of the given length. -/
def mkSpaces (n : Nat) : String := String.mk (List.replicate n ' ')

/-- Python `str.zfill`: pad on the left with zeros up to the width (the
inputs here are unsigned decimal strings). -/
def zfill (s : String) (width : Nat) : String :=
  if width ≤ s.length then s
  else String.mk (List.replicate (width - s.length) '0') ++ s

/-- Python `f"{s:3s}"` left-justification: pad on the right with spaces. -/
def ljust (s : String) (width : Nat) : String :=
  s ++ mkSpaces (width - s.length)

/-- The suffix lists of a list, longest first, the empty suffix included:
the start positions a combination's first element can take. -/
def tailsOf {α : Type} : List α → List (List α)
  | [] => [[]]
  | x :: xs => (x :: xs) :: tailsOf xs

namespace AenetGenerateCalculation

/-- A fingerprint record: the ordered key/value pair list the source builds
(`generate.py:194-200`, `215-223`). -/
abbrev Fingerprint : Type := List (String × PyVal)

/-- Radial (G=2) record (`generate.py:194-200`); the `Rc` field carries the
1-tuple produced by the trailing comma of `Rc = parameters["cutoff"],`
(`generate.py:180`). -/
def radialRecord (symbol : String) (eta Rc : PyVal) : Fingerprint :=
  [("G", .int 2), ("type2", .str symbol), ("eta", eta),
   ("Rs", .float 0), ("Rc", .tup1 Rc)]

/-- The radial loop of `behler` (`generate.py:188-200`) as written: append
one record per element symbol and per G2 eta, in loop order.  The source
method never reaches this loop (see `behler` below); the loop nest is
embedded as-written to settle what it would enumerate. -/
def behlerRadial (symbols : List String) (g2Etas : List PyVal) (Rc : PyVal) :
    List Fingerprint :=
  symbols.foldl (fun acc symbol =>
    g2Etas.foldl (fun acc2 eta => acc2 ++ [radialRecord symbol eta Rc]) acc) []

/-- Angular (G=4) record (`generate.py:215-223`). -/
def angularRecord (t2 t3 : String) (eta lam zeta Rc : PyVal) : Fingerprint :=
  [("G", .int 4), ("type2", .str t2), ("type3", .str t3), ("eta", eta),
   ("lambda", lam), ("zeta", zeta), ("Rc", .tup1 Rc)]

/-- `itertools.combinations_with_replacement` over a list, in itertools
order: tuples of nondecreasing positions; the first element is drawn from
each suffix in turn and the remaining r elements from that same suffix. -/
def cwr (l : List String) : Nat → List (List String)
  | 0 => [[]]
  | r + 1 =>
    (tailsOf l).flatMap (fun t =>
      match t with
      | [] => []
      | x :: xs => (cwr (x :: xs) r).map (fun u => x :: u))

/-- The `permutations` of `behler` (`generate.py:202-203`):
`set(combinations_with_replacement(symbols, len(symbols)))`.  The code then
unpacks each tuple as a pair `(t2, t3)`, which only succeeds for binary
alloys (the source carries `FIXME NEED TO GENERALIZE METHOD FOR MULTINARY
ALLOYS`); `none` models the unpacking `ValueError`.  The `set` collapses
nothing, since the combinations are already distinct, but its iteration
order is arbitrary, so only order-independent facts are proved about it. -/
def permutations (symbols : List String) : Option (List (String × String)) :=
  (cwr symbols symbols.length).mapM (fun t =>
    match t with
    | [a, b] => some (a, b)
    | _ => none)

/-- The inner two loops of the angular enumeration (`generate.py:211-223`):
every iteration overwrites the local `fingerprint`; the state passed along
is its latest value (`none` while it was never assigned). -/
def lastAngular (pairs : List (String × String)) (g4Etas : List PyVal)
    (lam zeta Rc : PyVal) (st : Option Fingerprint) : Option Fingerprint :=
  g4Etas.foldl (fun s eta =>
    pairs.foldl (fun _ p => some (angularRecord p.1 p.2 eta lam zeta Rc)) s) st

/-- Embedding of the angular loop nest of `behler` (`generate.py:205-225`).
The append `angular_fingerprints += [fingerprint]` sits at the indentation
level of the `eta` loop, inside the `_lambda` loop, so it runs once per
(zeta, lambda) pair and appends whatever record the two innermost loops last
stored; when no record was ever stored Python would raise `NameError`,
modelled here by appending nothing. -/
def behlerAngular (pairs : List (String × String))
    (g4Etas g4Lambdas g4Zetas : List PyVal) (Rc : PyVal) : List Fingerprint :=
  (g4Zetas.foldl (fun st zeta =>
    g4Lambdas.foldl (fun st2 lam =>
      match lastAngular pairs g4Etas lam zeta Rc st2.1 with
      | some fp => (some fp, st2.2 ++ [fp])
      | none => (none, st2.2)) st)
    ((none : Option Fingerprint), ([] : List Fingerprint))).2

/-- The symbol extraction at `generate.py:177`:
`symbols = [e.symbol for e in self.inputs.algorithm.elements]`.  The
`elements` attribute is the dictionary stored by `AenetAlgorithm.__init__`
(`set_attribute("elements", elements)`; used as a dict at
`generate.py:155` and `algorithm.py:116`), so the comprehension iterates
its string keys, and a Python `str` has no `symbol` attribute: the first
element raises `AttributeError`, modelled by `none`; only an empty
elements mapping lets the comprehension produce `[]`. -/
def behlerSymbols (elements : List (String × PyDict)) : Option (List String) :=
  match elements with
  | [] => some []
  | _ :: _ => none

/-- Embedding of `behler` (`generate.py:174-239`) from the method entry:
line 177 raises `AttributeError` for every nonempty elements mapping (see
`behlerSymbols`), and line 178 reads `self.parameters`, an attribute
neither this class nor its `CalcJob` base defines, raising
`AttributeError` even when the mapping is empty.  The method therefore
never reaches the enumeration loops (`behlerRadial`, `permutations`,
`behlerAngular` model those loop nests as written) and never returns
fingerprint records: `none` on every input models the raise. -/
def behler (elements : List (String × PyDict)) : Option (List Fingerprint) :=
  match behlerSymbols elements with
  | none => none
  | some _ => none

/-- File name for the structure at 0-based index `i` in a reference set of
`total` structures (`generate.py:109-110`): the 1-based decimal index
zero-padded to the digit count of `total`, with the `.xsf` suffix. -/
def xsfName (total i : Nat) : String :=
  zfill (toString (i + 1)) (toString total).length ++ ".xsf"

/-- The `xsf_file_list` accumulated by `write_xsfs` (`generate.py:77-115`):
one name appended per reference-structure index, in order. -/
def write_xsfs (referenceList : List Nat) : List String :=
  (List.range referenceList.length).foldl
    (fun acc i => acc ++ [xsfName referenceList.length i]) []

/-- Embedding of `AenetGenerateCalculation.chebyshev`
(`calculations/generate.py:241-262`): apply the four `setdefault` defaults to
the descriptor parameters dictionary, then build the two output lines (the
second line joins the four `key = value` fragments with single spaces, as
`"{0} {1} {2} {3}".format(*fingerprint_lines[1:])` does).  The first
component is the final state of the caller-supplied dictionary, recording
the in-place `setdefault` mutation. -/
def chebyshev (parameters : PyDict) : PyDict × List String :=
  let s1 := dictSetdefault parameters "radial cutoff" (.float 4)
  let s2 := dictSetdefault s1.2 "radial n" (.int 6)
  let s3 := dictSetdefault s2.2 "angular cutoff" (.float 4)
  let s4 := dictSetdefault s3.2 "angular n" (.int 2)
  let l1 := "radial_Rc = " ++ pyStr s1.1
  let l2 := "radial_N = " ++ pyStr s2.1
  let l3 := "angular_Rc = " ++ pyStr s3.1
  let l4 := "angular_N = " ++ pyStr s4.1
  (s4.2, ["BASIS type=Chebyshev", l1 ++ " " ++ l2 ++ " " ++ l3 ++ " " ++ l4])

/-- Embedding of `write_input` (`generate.py:144-172`): the `generate.in`
text as a function of the elements mapping (symbol to traits dictionary),
the debug/timing flags, the reference list and the exported structure-file
list; `none` models the `KeyError` when a traits dictionary lacks
`energy`. -/
def write_input (elements : List (String × PyDict)) (debug timing : Bool)
    (referenceList : List Nat) (xsfFileList : List String) : Option String := do
  let energies ← elements.mapM (fun et => do
    let e ← dictGet et.2 "energy"
    pure (ljust et.1 3 ++ " " ++ pyStr e ++ "  ! eV"))
  let setups := elements.map (fun et => ljust et.1 3 ++ " " ++ et.1 ++ ".stp")
  let inputLines :=
    ["OUTPUT train.dat", ""] ++
    (if debug then ["DEBUG"] else []) ++
    (if timing then ["TIMING"] else []) ++
    ["TYPES", toString elements.length] ++ energies ++
    ["", "SETUPS"] ++ setups ++
    ["", "FILES", toString referenceList.length] ++ xsfFileList
  pure (String.intercalate "\n" inputLines)

end AenetGenerateCalculation

namespace AenetAlgorithm

/-- The defaulted run parameters of `AenetAlgorithm.set_parameters`
(`data/algorithm.py:156-166`), in source order. -/
def parameterDefaults : List (String × PyVal) :=
  [("debug", .bool true), ("timing", .bool true), ("save_energies", .bool true),
   ("predict_forces", .bool false), ("predict_relax", .bool false),
   ("test_percent", .int 10), ("epochs", .int 10), ("max_energy", .float 0),
   ("r_min", .float (mkRat 3 4))]

/-- One step of the `set_parameters` loop (`data/algorithm.py:168-171`):
`value = parameter_dict.setdefault(attr, default)` followed by
`self.set_attribute(attr, value)`.  State is the (possibly mutated)
dictionary plus the attribute assignments made so far. -/
def setParametersStep (st : PyDict × List (String × PyVal))
    (kv : String × PyVal) : PyDict × List (String × PyVal) :=
  let s := dictSetdefault st.1 kv.1 kv.2
  (s.2, st.2 ++ [(kv.1, s.1)])

/-- Embedding of `AenetAlgorithm.set_parameters` (`data/algorithm.py:153-171`):
fold the defaulting loop over the nine defaults.  The first component is the
final state of the caller-supplied dictionary; the second lists the
`set_attribute` calls in order. -/
def set_parameters (parameter_dict : PyDict) : PyDict × List (String × PyVal) :=
  parameterDefaults.foldl setParametersStep (parameter_dict, [])

end AenetAlgorithm

/-- Prefix test on character lists. -/
def leadsList : List Char → List Char → Bool
  | [], _ => true
  | _ :: _, [] => false
  | a :: as, b :: bs => a = b && leadsList as bs

/-- Substring containment on character lists: the pattern is a prefix of
some suffix. -/
def hasSubChars (pat : List Char) : List Char → Bool
  | [] => leadsList pat []
  | c :: rest => leadsList pat (c :: rest) || hasSubChars pat rest

/-- Python `pat in s` substring containment. -/
def hasSubStr (s pat : String) : Bool := hasSubChars pat.data s.data

/-- Python `str.replace` body: non-overlapping left-to-right replacement,
with fuel bounding the step count (one character or one pattern occurrence
is consumed per step, so the subject's length is enough fuel for a nonempty
pattern). -/
def replaceChars (pat rep : List Char) : Nat → List Char → List Char
  | _, [] => []
  | 0, s => s
  | fuel + 1, c :: rest =>
    if leadsList pat (c :: rest) then
      rep ++ replaceChars pat rep fuel ((c :: rest).drop pat.length)
    else c :: replaceChars pat rep fuel rest

/-- Python `s.replace(pat, rep)` for a nonempty pattern. -/
def strReplace (s pat rep : String) : String :=
  String.mk (replaceChars pat.data rep.data s.data.length s.data)

/-- The whitespace characters Python's `int()` strips. -/
def isPySpace (c : Char) : Bool :=
  c = ' ' || c = '\n' || c = '\t' || c = '\r'

/-- Decimal value of a digit string. -/
def digitsToNat (ds : List Char) : Nat :=
  ds.foldl (fun a c => a * 10 + (c.toNat - 48)) 0

/-- Python `int(s)`: strip surrounding whitespace, accept an optional sign
followed by one or more digits; `none` models the `ValueError`. -/
def parseIntPy (s : String) : Option Int :=
  let t := ((s.data.dropWhile isPySpace).reverse.dropWhile isPySpace).reverse
  match t with
  | [] => none
  | c :: rest =>
    let sd : Bool × List Char :=
      if c = '-' then (true, rest)
      else if c = '+' then (false, rest) else (false, c :: rest)
    if sd.2.isEmpty || !sd.2.all Char.isDigit then none
    else if sd.1 then some (-(digitsToNat sd.2 : Int))
    else some ((digitsToNat sd.2 : Int))

/-- Match of the first regex alternative `[-+]?\d*\.\d+` anchored at the
start of the character list: optional sign, greedy digits, a dot, and at
least one further digit. -/
def matchFloatTok (s : List Char) : Option (List Char) :=
  let sr : List Char × List Char :=
    match s with
    | c :: r => if c = '-' || c = '+' then ([c], r) else ([], s)
    | [] => ([], [])
  let ds := sr.2.takeWhile Char.isDigit
  match sr.2.dropWhile Char.isDigit with
  | '.' :: r3 =>
    let fs := r3.takeWhile Char.isDigit
    if fs.isEmpty then none else some (sr.1 ++ ds ++ '.' :: fs)
  | _ => none

/-- Match of the second regex alternative `\d+` anchored at the start. -/
def matchIntTok (s : List Char) : Option (List Char) :=
  let ds := s.takeWhile Char.isDigit
  if ds.isEmpty then none else some ds

/-- Leftmost match of `re.findall(r'[-+]?\d*\.\d+|\d+', line)[0]`: at each
position try the float alternative, then the integer alternative, then
advance one character. -/
def findNumTok : List Char → Option (List Char)
  | [] => none
  | c :: rest =>
    match matchFloatTok (c :: rest) with
    | some m => some m
    | none =>
      match matchIntTok (c :: rest) with
      | some m => some m
      | none => findNumTok rest

/-- Python `float()` of a token matched by the regex above: an optional
sign, integer digits, and optional fractional digits. -/
def pyFloatOfTok (cs : List Char) : Rat :=
  let nt : Bool × List Char :=
    match cs with
    | '-' :: r => (true, r)
    | '+' :: r => (false, r)
    | _ => (false, cs)
  let ip := nt.2.takeWhile Char.isDigit
  let fp :=
    match nt.2.dropWhile Char.isDigit with
    | '.' :: r => r.takeWhile Char.isDigit
    | _ => []
  let v : Rat :=
    mkRat ((digitsToNat ip * 10 ^ fp.length + digitsToNat fp : Nat) : Int)
      (10 ^ fp.length)
  if nt.1 then -v else v

namespace AenetPredictParser

/-- The literal `f" Total energy {13 * ' '} :"` pattern (`predict.py:63`). -/
def totalEnergyPat : String := " Total energy " ++ mkSpaces 13 ++ " :"

/-- The replace target `' Number of atoms   :'` (`predict.py:61`). -/
def natomsTarget : String := " Number of atoms   :"

/-- The line scan of `parse_output` (`predict.py:52-68`): activate on the
`Energy evaluation` sentinel (the sentinel line itself is still checked),
then per retained line append the parsed atom count for a `Number of atoms`
line and the first regex-extracted number for a `Total energy` line,
stopping at the completion sentinel; `none` models the `ValueError` or
`IndexError` when number extraction fails. -/
def predictScan : List String → Bool → List Int → List Rat →
    Option (List Int × List Rat)
  | [], _, ns, es => some (ns, es)
  | line :: rest, active, ns, es =>
    let active2 := active || hasSubStr line "Energy evaluation"
    if !active2 then predictScan rest active2 ns es
    else
      match
        (if hasSubStr line "Number of atoms" then
          (parseIntPy (strReplace line natomsTarget "")).map
            (fun n => ns ++ [n])
        else some ns) with
      | none => none
      | some ns2 =>
        match
          (if hasSubStr line totalEnergyPat then
            (findNumTok line.data).map (fun m => es ++ [pyFloatOfTok m])
          else some es) with
        | none => none
        | some es2 =>
          if hasSubStr line "Atomic Energy Network done." then some (ns2, es2)
          else predictScan rest active2 ns2 es2

/-- The zip of pks, atom counts and energies into `{str(pk): {n, E}}` items
(`predict.py:70-76`): Python `zip` truncates to the shortest of the three
lists; with distinct pks the dict comprehension keeps this insertion
order. -/
def zipRecords : List Int → List Int → List Rat → List (String × Int × Rat)
  | pk :: ps, n :: ns, e :: es => (toString pk, n, e) :: zipRecords ps ns es
  | _, _, _ => []

/-- Embedding of `AenetPredictParser.parse_output` (`predict.py:40-78`). -/
def parse_output (pks : List Int) (lines : List String) :
    Option (List (String × Int × Rat)) :=
  (predictScan lines false [] []).map (fun r => zipRecords pks r.1 r.2)

/-- Fixture: a predict.x output with the energy-evaluation sentinel and
three structure blocks of which only the first two carry a `Total energy`
line. -/
def mismatchOutput : List String :=
  [" Energy evaluation\n",
   " Number of atoms   : 8\n",
   " Total energy " ++ mkSpaces 13 ++ " : -12.5 eV\n",
   " Number of atoms   : 4\n",
   " Total energy " ++ mkSpaces 13 ++ " : -7.25 eV\n",
   " Number of atoms   : 2\n"]

end AenetPredictParser

namespace AenetTrainParser

/-- The header sentinel `f" epoch {11 * ' '} MAE {8 * ' '} <RMSE>"`
(`train.py:52`). -/
def epochSentinel : String :=
  " epoch " ++ mkSpaces 11 ++ " MAE " ++ mkSpaces 8 ++ " <RMSE>"

/-- The convergence announcement line (`train.py:58`), with the trailing
newline `readlines` keeps on it. -/
def convergeLine : String :=
  " The optimization has converged. Training stopped.\n"

/-- The scan loop `for i, line in enumerate(lines): if sentinel in line:
break` (`train.py:50-53`): the loop variable keeps the index of the first
matching line, or of the last line when no line matches; `none` models the
`NameError` on an empty file, where `i` was never bound. -/
def scanHeader : List String → Option Nat
  | [] => none
  | [_] => some 0
  | l :: l2 :: rest =>
    if hasSubStr l epochSentinel then some 0
    else (scanHeader (l2 :: rest)).map (· + 1)

/-- The slice `lines[i + 1 : min(i + n_epochs + 2, len(lines))]`
(`train.py:56-57`). -/
def epochWindow (nEpochs i : Nat) (lines : List String) : List String :=
  (lines.take (min (i + nEpochs + 2) lines.length)).drop (i + 1)

/-- The convergence truncation (`train.py:60-63`): when the convergence
line occurs, keep only the lines strictly before its first occurrence
(`epoch_lines[:epoch_lines.index(converge_string)]`), otherwise keep the
window unchanged. -/
def truncAtConverge : List String → List String
  | [] => []
  | l :: rest => if l = convergeLine then [] else l :: truncAtConverge rest

/-- Lines 50-63 of `train.py` composed: the epoch lines the parser
retains. -/
def selectEpochLines (nEpochs : Nat) (lines : List String) :
    Option (List String) :=
  (scanHeader lines).map (fun i =>
    truncAtConverge (epochWindow nEpochs i lines))

/-- A numpy array entry as loaded by `np.loadtxt` with the `i`/`f` dtypes:
an integer, a finite float, or the float NaN. -/
inductive NpVal where
  | i : Int → NpVal
  | f : Rat → NpVal
  | fnan : NpVal
  deriving DecidableEq, Repr

/-- `np.isnan` on one entry (never true on an integer entry). -/
def npIsNaN : NpVal → Bool
  | .fnan => true
  | _ => false

/-- One entry of `np.where(np.isnan(array), "NaN", array)` (`train.py:96`):
mixing the string `"NaN"` with a numeric array promotes the whole result to
a string dtype, so every element becomes a string — `"NaN"` where the mask
holds, numpy's decimal rendering of the number elsewhere. -/
def npNanChecked (v : NpVal) : PyVal :=
  if npIsNaN v then .str "NaN"
  else
    .str (match v with
      | .i n => toString n
      | .f q => floatRepr q
      | .fnan => "NaN")

/-- The conversion loop of `parse_output` (`train.py:84-97`): the results
dictionary in insertion order, each metric array replaced by
`list(np.where(np.isnan(array), "NaN", array))`. -/
def convertResults (epochs trainMae trainRmse testMae testRmse : List NpVal) :
    List (String × List PyVal) :=
  [("epochs", epochs.map npNanChecked),
   ("train_mae", trainMae.map npNanChecked),
   ("train_rmse", trainRmse.map npNanChecked),
   ("test_mae", testMae.map npNanChecked),
   ("test_rmse", testRmse.map npNanChecked)]

end AenetTrainParser

/-- A list is an initial segment of another. -/
def isPre {α : Type} (w l : List α) : Prop := ∃ t, w ++ t = l

/-! ## Helper lemmas -/

theorem dictSetdefault_present (d : PyDict) (k : String) (v : PyVal)
    (h : (dictGet d k).isSome) : (dictSetdefault d k v).2 = d := by
  unfold dictSetdefault
  cases hg : dictGet d k with
  | none => rw [hg] at h; simp [Option.isSome] at h
  | some w => simp

theorem setParameters_fold_fixed (defs : List (String × PyVal)) :
    ∀ (d : PyDict) (acc : List (String × PyVal)),
      (∀ kv ∈ defs, (dictGet d kv.1).isSome) →
      (defs.foldl AenetAlgorithm.setParametersStep (d, acc)).1 = d := by
  induction defs with
  | nil => intro d acc _; rfl
  | cons kv rest ih =>
    intro d acc h
    have hk : (dictGet d kv.1).isSome := h kv (List.mem_cons_self _ _)
    have hstep : AenetAlgorithm.setParametersStep (d, acc) kv =
        (d, acc ++ [(kv.1, (dictSetdefault d kv.1 kv.2).1)]) := by
      simp only [AenetAlgorithm.setParametersStep]
      rw [dictSetdefault_present d kv.1 kv.2 hk]
    rw [List.foldl_cons, hstep]
    exact ih d _ (fun p hp => h p (List.mem_cons_of_mem _ hp))

theorem foldl_append_singleton {α β : Type} (f : α → β) :
    ∀ (l : List α) (init : List β),
      l.foldl (fun acc x => acc ++ [f x]) init = init ++ l.map f := by
  intro l
  induction l with
  | nil => intro init; simp
  | cons x xs ih =>
    intro init
    rw [List.foldl_cons, ih]
    simp

theorem behlerRadial_eq_flatMap (symbols : List String) (g2Etas : List PyVal)
    (Rc : PyVal) :
    AenetGenerateCalculation.behlerRadial symbols g2Etas Rc =
      symbols.flatMap (fun s => g2Etas.map (fun eta =>
        AenetGenerateCalculation.radialRecord s eta Rc)) := by
  unfold AenetGenerateCalculation.behlerRadial
  suffices h : ∀ (init : List AenetGenerateCalculation.Fingerprint),
      symbols.foldl (fun acc symbol =>
        g2Etas.foldl (fun acc2 eta =>
          acc2 ++ [AenetGenerateCalculation.radialRecord symbol eta Rc]) acc)
        init =
      init ++ symbols.flatMap (fun s => g2Etas.map (fun eta =>
        AenetGenerateCalculation.radialRecord s eta Rc)) by
    simpa using h []
  induction symbols with
  | nil => intro init; simp
  | cons s ss ih =>
    intro init
    rw [List.foldl_cons,
      foldl_append_singleton (fun eta =>
        AenetGenerateCalculation.radialRecord s eta Rc) g2Etas init, ih]
    simp

theorem flatMap_map_length {α β γ : Type} (l : List α) (m : List β)
    (f : α → β → γ) :
    (l.flatMap (fun a => m.map (f a))).length = l.length * m.length := by
  induction l with
  | nil => simp
  | cons x xs ih =>
    simp only [List.flatMap_cons, List.length_append, List.length_map, ih,
      List.length_cons]
    ring

theorem zipRecords_length : ∀ (pks ns : List Int) (es : List Rat),
    (AenetPredictParser.zipRecords pks ns es).length =
      min pks.length (min ns.length es.length)
  | [], _, _ => by simp [AenetPredictParser.zipRecords]
  | _ :: _, [], _ => by simp [AenetPredictParser.zipRecords]
  | _ :: _, _ :: _, [] => by simp [AenetPredictParser.zipRecords]
  | pk :: ps, n :: ns, e :: es => by
    simp [AenetPredictParser.zipRecords, zipRecords_length ps ns es,
      Nat.succ_min_succ]

theorem scanHeader_isSome : ∀ (lines : List String), lines ≠ [] →
    ∃ i, AenetTrainParser.scanHeader lines = some i
  | [], h => absurd rfl h
  | [_], _ => ⟨0, rfl⟩
  | l :: l2 :: rest, _ => by
    by_cases hc : hasSubStr l AenetTrainParser.epochSentinel = true
    · exact ⟨0, by simp [AenetTrainParser.scanHeader, hc]⟩
    · obtain ⟨j, hj⟩ := scanHeader_isSome (l2 :: rest) (by simp)
      exact ⟨j + 1, by simp [AenetTrainParser.scanHeader, hc, hj]⟩

theorem scanHeader_no_match : ∀ (lines : List String), lines ≠ [] →
    (∀ l ∈ lines, hasSubStr l AenetTrainParser.epochSentinel = false) →
    AenetTrainParser.scanHeader lines = some (lines.length - 1)
  | [], h, _ => absurd rfl h
  | [_], _, _ => rfl
  | l :: l2 :: rest, _, h => by
    have hl : hasSubStr l AenetTrainParser.epochSentinel = false :=
      h l (List.mem_cons_self _ _)
    have ih := scanHeader_no_match (l2 :: rest) (by simp)
      (fun x hx => h x (List.mem_cons_of_mem _ hx))
    simp only [AenetTrainParser.scanHeader, hl, Bool.false_eq_true, if_false,
      ih, Option.map_some']
    simp

theorem truncAtConverge_length_le (l : List String) :
    (AenetTrainParser.truncAtConverge l).length ≤ l.length := by
  induction l with
  | nil => simp [AenetTrainParser.truncAtConverge]
  | cons x rest ih =>
    by_cases hx : x = AenetTrainParser.convergeLine
    · simp [AenetTrainParser.truncAtConverge, hx]
    · simp only [AenetTrainParser.truncAtConverge, if_neg hx, List.length_cons]
      omega

theorem truncAtConverge_not_mem (l : List String) :
    AenetTrainParser.convergeLine ∉ AenetTrainParser.truncAtConverge l := by
  induction l with
  | nil => simp [AenetTrainParser.truncAtConverge]
  | cons x rest ih =>
    by_cases hx : x = AenetTrainParser.convergeLine
    · simp [AenetTrainParser.truncAtConverge, hx]
    · simp only [AenetTrainParser.truncAtConverge, if_neg hx, List.mem_cons]
      rintro (h | h)
      · exact hx h.symm
      · exact ih h

theorem truncAtConverge_isPre (l : List String) :
    isPre (AenetTrainParser.truncAtConverge l) l := by
  induction l with
  | nil => exact ⟨[], rfl⟩
  | cons x rest ih =>
    by_cases hx : x = AenetTrainParser.convergeLine
    · exact ⟨x :: rest, by simp [AenetTrainParser.truncAtConverge, hx]⟩
    · obtain ⟨t, ht⟩ := ih
      exact ⟨t, by simp [AenetTrainParser.truncAtConverge, if_neg hx, ht]⟩

theorem epochWindow_length_le (nEpochs i : Nat) (lines : List String) :
    (AenetTrainParser.epochWindow nEpochs i lines).length ≤ nEpochs + 2 := by
  unfold AenetTrainParser.epochWindow
  rw [List.length_drop, List.length_take]
  omega

theorem npNanChecked_string (v : AenetTrainParser.NpVal) :
    ∃ s, AenetTrainParser.npNanChecked v = PyVal.str s := by
  cases v <;> exact ⟨_, rfl⟩

/-! ## Claim theorems -/

/-- C7: for a Chebyshev descriptor configuration with none of its four
parameters set, the encoder's output is the two-line block naming the basis
type with the four numeric parameters at their defaults 4.0, 6, 4.0, 2. -/
theorem aenet_c7 :
    AenetGenerateCalculation.chebyshev [] =
      ([("radial cutoff", PyVal.float 4), ("radial n", PyVal.int 6),
        ("angular cutoff", PyVal.float 4), ("angular n", PyVal.int 2)],
       ["BASIS type=Chebyshev",
        "radial_Rc = 4.0 radial_N = 6 angular_Rc = 4.0 angular_N = 2"]) := by
  rfl

/-- C5 counterexample: with an empty caller-supplied mapping, the Chebyshev
encoder's `setdefault` calls leave the descriptor parameters dictionary
changed (the four defaults are inserted), and `set_parameters` likewise
mutates the constructor's parameter dictionary (the nine defaults are
inserted), refuting the claim that both are left unchanged. -/
theorem aenet_c5_cex :
    (AenetGenerateCalculation.chebyshev []).1 ≠ ([] : PyDict) ∧
    (AenetAlgorithm.set_parameters []).1 ≠ ([] : PyDict) := by
  constructor <;> decide

/-- C5 (amended): `setdefault`-based defaulting mutates the caller-supplied
mappings by inserting absent keys; the Chebyshev descriptor parameters
mapping and the constructor's parameter dictionary are left unchanged
exactly when every defaulted key is already present, stated here for the
present-keys direction. -/
theorem aenet_c5 (dd dp : PyDict)
    (h1 : ∀ k ∈ ["radial cutoff", "radial n", "angular cutoff", "angular n"],
      (dictGet dd k).isSome)
    (h2 : ∀ kv ∈ AenetAlgorithm.parameterDefaults, (dictGet dp kv.1).isSome) :
    (AenetGenerateCalculation.chebyshev dd).1 = dd ∧
    (AenetAlgorithm.set_parameters dp).1 = dp := by
  constructor
  · have e1 := dictSetdefault_present dd "radial cutoff" (.float 4)
      (h1 _ (by simp))
    have e2 := dictSetdefault_present dd "radial n" (.int 6)
      (h1 _ (by simp))
    have e3 := dictSetdefault_present dd "angular cutoff" (.float 4)
      (h1 _ (by simp))
    have e4 := dictSetdefault_present dd "angular n" (.int 2)
      (h1 _ (by simp))
    simp [AenetGenerateCalculation.chebyshev, e1, e2, e3, e4]
  · exact setParameters_fold_fixed _ dp [] h2

/-- C5 amended-claim witness: a Chebyshev parameters dictionary and a
constructor parameter dictionary that already carry every defaulted key are
returned unchanged. -/
theorem aenet_c5_witness :
    (AenetGenerateCalculation.chebyshev
      [("radial cutoff", PyVal.float 5), ("radial n", PyVal.int 8),
       ("angular cutoff", PyVal.float 3), ("angular n", PyVal.int 4)]).1 =
      [("radial cutoff", PyVal.float 5), ("radial n", PyVal.int 8),
       ("angular cutoff", PyVal.float 3), ("angular n", PyVal.int 4)] ∧
    (AenetAlgorithm.set_parameters
      [("debug", PyVal.bool false), ("timing", PyVal.bool false),
       ("save_energies", PyVal.bool false), ("predict_forces", PyVal.bool true),
       ("predict_relax", PyVal.bool true), ("test_percent", PyVal.int 20),
       ("epochs", PyVal.int 5), ("max_energy", PyVal.float 1),
       ("r_min", PyVal.float 1)]).1 =
      [("debug", PyVal.bool false), ("timing", PyVal.bool false),
       ("save_energies", PyVal.bool false), ("predict_forces", PyVal.bool true),
       ("predict_relax", PyVal.bool true), ("test_percent", PyVal.int 20),
       ("epochs", PyVal.int 5), ("max_energy", PyVal.float 1),
       ("r_min", PyVal.float 1)] :=
  aenet_c5 _ _ (by decide) (by decide)

/-- C6 (code-bug evaluation): on a two-element Behler configuration the
method raises before any enumeration — the comprehension at
`generate.py:177` reads `.symbol` from the elements dictionary's string
keys and `self.parameters` at line 178 is undefined — so the encoder
emits no radial records at all, while the radial loop it never reaches
would, as written, have emitted exactly one G=2 record per (symbol, eta):
|symbols| times |etas| records, the claimed 2 times 2 = 4 on this input. -/
theorem aenet_c6 :
    AenetGenerateCalculation.behler
      [("A", [("energy", PyVal.float 1)]),
       ("B", [("energy", PyVal.float 2)])] = none ∧
    (∀ (symbols : List String) (g2Etas : List PyVal) (Rc : PyVal),
      AenetGenerateCalculation.behlerRadial symbols g2Etas Rc =
        symbols.flatMap (fun s => g2Etas.map (fun eta =>
          AenetGenerateCalculation.radialRecord s eta Rc)) ∧
      (AenetGenerateCalculation.behlerRadial symbols g2Etas Rc).length =
        symbols.length * g2Etas.length) ∧
    (AenetGenerateCalculation.behlerRadial ["A", "B"]
      [PyVal.float (mkRat 1 10), PyVal.float (mkRat 1 5)]
      (PyVal.float 4)).length = 4 := by
  refine ⟨rfl, fun symbols g2Etas Rc =>
    ⟨behlerRadial_eq_flatMap symbols g2Etas Rc, ?_⟩, ?_⟩
  · rw [behlerRadial_eq_flatMap]
    exact flatMap_map_length symbols g2Etas _
  · decide

/-- C1 (code-bug evaluation): for the binary alloy {A, B} with one zeta, two
lambdas and one eta, the claim's full-cross-product enumeration predicts
3 pairs times 1 times 2 times 1 = 6 angular records, but the code keeps only
the record last overwritten inside the innermost loop before the
`_lambda`-level append, producing exactly 2 records — one per (zeta, lambda)
pair, both for the final pair (B, B) and the final eta. -/
theorem aenet_c1 :
    AenetGenerateCalculation.permutations ["A", "B"] =
      some [("A", "A"), ("A", "B"), ("B", "B")] ∧
    AenetGenerateCalculation.behlerAngular [("A", "A"), ("A", "B"), ("B", "B")]
        [PyVal.float (mkRat 1 2)] [PyVal.float 1, PyVal.float (-1)]
        [PyVal.float 1] (PyVal.float 4) =
      [AenetGenerateCalculation.angularRecord "B" "B" (PyVal.float (mkRat 1 2))
        (PyVal.float 1) (PyVal.float 1) (PyVal.float 4),
       AenetGenerateCalculation.angularRecord "B" "B" (PyVal.float (mkRat 1 2))
        (PyVal.float (-1)) (PyVal.float 1) (PyVal.float 4)] ∧
    (2 : Nat) ≠ 3 * 1 * 2 * 1 := by
  refine ⟨by decide, by decide, by decide⟩

/-- C8: the exported structure files are named by the 1-based decimal index
zero-padded to the digit count of the reference-set size, with the `.xsf`
suffix; a reference set of 12 structures yields `01.xsf` through `12.xsf`. -/
theorem aenet_c8 :
    (∀ (ref : List Nat) (i : Nat), i < ref.length →
      (AenetGenerateCalculation.write_xsfs ref)[i]? =
        some (zfill (toString (i + 1)) (toString ref.length).length ++ ".xsf")) ∧
    AenetGenerateCalculation.write_xsfs (List.range 12) =
      ["01.xsf", "02.xsf", "03.xsf", "04.xsf", "05.xsf", "06.xsf", "07.xsf",
       "08.xsf", "09.xsf", "10.xsf", "11.xsf", "12.xsf"] := by
  constructor
  · intro ref i hi
    unfold AenetGenerateCalculation.write_xsfs
    rw [foldl_append_singleton (AenetGenerateCalculation.xsfName ref.length)
      (List.range ref.length) []]
    simp [List.getElem?_map, List.getElem?_range hi,
      AenetGenerateCalculation.xsfName]
  · decide

/-- C8 witness: the first of 12 exported structures is written to
`01.xsf`. -/
theorem aenet_c8_witness :
    (AenetGenerateCalculation.write_xsfs (List.range 12))[0]? =
      some (zfill (toString (0 + 1)) (toString (List.range 12).length).length
        ++ ".xsf") :=
  aenet_c8.1 (List.range 12) 0 (by decide)

/-- C9: the `generate.in` builder is a deterministic function of the
algorithm configuration (elements, debug and timing flags), the reference
list and the exported structure-file list: two builds from equal inputs
yield byte-identical text. -/
theorem aenet_c9 (e1 e2 : List (String × PyDict)) (d1 d2 t1 t2 : Bool)
    (r1 r2 : List Nat) (x1 x2 : List String)
    (he : e1 = e2) (hd : d1 = d2) (ht : t1 = t2) (hr : r1 = r2) (hx : x1 = x2) :
    AenetGenerateCalculation.write_input e1 d1 t1 r1 x1 =
      AenetGenerateCalculation.write_input e2 d2 t2 r2 x2 := by
  subst he; subst hd; subst ht; subst hr; subst hx; rfl

/-- C9 witness: a concrete double build agrees, and the built text is the
expected `generate.in` block. -/
theorem aenet_c9_witness :
    AenetGenerateCalculation.write_input
        [("Ni", [("energy", PyVal.float (mkRat (-1) 2))])] true false [7, 9]
        ["1.xsf", "2.xsf"] =
      AenetGenerateCalculation.write_input
        [("Ni", [("energy", PyVal.float (mkRat (-1) 2))])] true false [7, 9]
        ["1.xsf", "2.xsf"] ∧
    AenetGenerateCalculation.write_input
        [("Ni", [("energy", PyVal.float (mkRat (-1) 2))])] true false [7, 9]
        ["1.xsf", "2.xsf"] =
      some ("OUTPUT train.dat\n\nDEBUG\nTYPES\n1\nNi  -0.5  ! eV\n\nSETUPS\nNi  Ni.stp\n\nFILES\n2\n1.xsf\n2.xsf") :=
  ⟨aenet_c9 _ _ _ _ _ _ _ _ _ _ rfl rfl rfl rfl rfl, by decide⟩

/-- C2 counterexample: three structure identifiers but only two
`Total energy` lines — the parser returns a result of two records, silently
dropping the third identifier through `zip` truncation, and raises nothing
(no `ResultCountMismatchError` exists in the code), refuting the claim that
one record per identifier is produced or an error raised. -/
theorem aenet_c2_cex :
    AenetPredictParser.parse_output [1, 2, 3]
        AenetPredictParser.mismatchOutput =
      some [("1", 8, mkRat (-25) 2), ("2", 4, mkRat (-29) 4)] ∧
    (2 : Nat) ≠ 3 := ⟨by decide, by decide⟩

/-- C2 (amended): the prediction parser zips the structure identifiers with
the extracted atom counts and energies in original submission order; Python
`zip` truncates silently to the shortest list, so the number of result
records is the minimum of the three counts and no mismatch error is ever
raised. -/
theorem aenet_c2 (pks : List Int) (lines : List String)
    (ns : List Int) (es : List Rat)
    (h : AenetPredictParser.predictScan lines false [] [] = some (ns, es)) :
    AenetPredictParser.parse_output pks lines =
      some (AenetPredictParser.zipRecords pks ns es) ∧
    (AenetPredictParser.zipRecords pks ns es).length =
      min pks.length (min ns.length es.length) := by
  refine ⟨?_, zipRecords_length pks ns es⟩
  unfold AenetPredictParser.parse_output
  rw [h]
  rfl

/-- C2 amended-claim witness: on the fixture with three identifiers, three
atom counts and two energies, the parser returns the zip of the three
lists, of length 2 = min(3, min(3, 2)). -/
theorem aenet_c2_witness :
    AenetPredictParser.parse_output [1, 2, 3]
        AenetPredictParser.mismatchOutput =
      some (AenetPredictParser.zipRecords [1, 2, 3] [8, 4, 2]
        [mkRat (-25) 2, mkRat (-29) 4]) ∧
    (AenetPredictParser.zipRecords [1, 2, 3] [8, 4, 2]
      [mkRat (-25) 2, mkRat (-29) 4]).length = min 3 (min 3 2) :=
  aenet_c2 [1, 2, 3] AenetPredictParser.mismatchOutput [8, 4, 2]
    [mkRat (-25) 2, mkRat (-29) 4] (by decide)

/-- C3 counterexample: a nonempty training output in which the header
sentinel never occurs — the parser returns an (empty) epoch-line selection
instead of raising; no `MalformedOutputError` exists in the code. -/
theorem aenet_c3_cex :
    AenetTrainParser.selectEpochLines 10 ["a\n", "b\n", "c\n"] = some [] := by
  decide

/-- C3 (amended): when the header sentinel never occurs in a nonempty
output, the scan index rests on the last line, the epoch window is empty,
and the parser returns the empty selection rather than raising a dedicated
error. -/
theorem aenet_c3 (nEpochs : Nat) (lines : List String) (hne : lines ≠ [])
    (h : ∀ l ∈ lines, hasSubStr l AenetTrainParser.epochSentinel = false) :
    AenetTrainParser.selectEpochLines nEpochs lines = some [] := by
  have hpos : 0 < lines.length := List.length_pos.mpr hne
  have hscan := scanHeader_no_match lines hne h
  unfold AenetTrainParser.selectEpochLines
  rw [hscan, Option.map_some']
  have hwin : AenetTrainParser.epochWindow nEpochs (lines.length - 1) lines
      = [] := by
    unfold AenetTrainParser.epochWindow
    apply List.drop_eq_nil_of_le
    rw [List.length_take]
    omega
  rw [hwin]
  rfl

/-- C3 amended-claim witness: a single sentinel-free line yields the empty
selection. -/
theorem aenet_c3_witness :
    AenetTrainParser.selectEpochLines 5 ["x\n"] = some [] :=
  aenet_c3 5 ["x\n"] (by decide) (by decide)

/-- C4: when the header sentinel occurs, the parser retains a window of at
most `epochs + 2` lines after the sentinel index (the slice in fact holds
at most `epochs + 1` lines), and when the convergence-announcement line
occurs in that window only the lines strictly before its first occurrence
survive: the retained list is an initial segment of the window that never
contains the convergence line. -/
theorem aenet_c4 (nEpochs : Nat) (lines : List String)
    (h : ∃ l ∈ lines, hasSubStr l AenetTrainParser.epochSentinel = true) :
    ∃ i w, AenetTrainParser.scanHeader lines = some i ∧
      AenetTrainParser.selectEpochLines nEpochs lines = some w ∧
      w.length ≤ nEpochs + 2 ∧
      AenetTrainParser.convergeLine ∉ w ∧
      isPre w (AenetTrainParser.epochWindow nEpochs i lines) := by
  obtain ⟨l, hl, _⟩ := h
  have hne : lines ≠ [] := by
    intro he
    rw [he] at hl
    exact absurd hl (List.not_mem_nil l)
  obtain ⟨i, hi⟩ := scanHeader_isSome lines hne
  refine ⟨i, AenetTrainParser.truncAtConverge
    (AenetTrainParser.epochWindow nEpochs i lines), hi, ?_, ?_, ?_, ?_⟩
  · unfold AenetTrainParser.selectEpochLines
    rw [hi, Option.map_some']
  · exact le_trans (truncAtConverge_length_le _)
      (epochWindow_length_le nEpochs i lines)
  · exact truncAtConverge_not_mem _
  · exact truncAtConverge_isPre _

/-- C4 witness: a concrete output with the sentinel on the second line, one
epoch line, then the convergence announcement: the selection keeps exactly
the epoch line, within the `epochs + 2` bound and strictly before the
convergence line. -/
theorem aenet_c4_witness :
    ∃ i w, AenetTrainParser.scanHeader
        ["junk\n", AenetTrainParser.epochSentinel ++ "\n",
         "1 0.1 0.2 0.3 0.4 <\n", AenetTrainParser.convergeLine, "extra\n"] =
      some i ∧
      AenetTrainParser.selectEpochLines 3
        ["junk\n", AenetTrainParser.epochSentinel ++ "\n",
         "1 0.1 0.2 0.3 0.4 <\n", AenetTrainParser.convergeLine, "extra\n"] =
      some w ∧
      w.length ≤ 3 + 2 ∧
      AenetTrainParser.convergeLine ∉ w ∧
      isPre w (AenetTrainParser.epochWindow 3 i
        ["junk\n", AenetTrainParser.epochSentinel ++ "\n",
         "1 0.1 0.2 0.3 0.4 <\n", AenetTrainParser.convergeLine, "extra\n"]) :=
  aenet_c4 3 _ ⟨AenetTrainParser.epochSentinel ++ "\n", by decide⟩

/-- C10: every entry of the five converted metric lists is a string — the
`np.where(isnan, "NaN", array)` promotion turns numeric entries into their
decimal rendering and NaN entries into the string `"NaN"` — so no entry of
the returned metric lists is a numeric value. -/
theorem aenet_c10 :
    (∀ (epochs trainMae trainRmse testMae testRmse :
        List AenetTrainParser.NpVal),
      ∀ p ∈ AenetTrainParser.convertResults epochs trainMae trainRmse
        testMae testRmse, ∀ v ∈ p.2, ∃ s, v = PyVal.str s) ∧
    AenetTrainParser.npNanChecked AenetTrainParser.NpVal.fnan =
      PyVal.str "NaN" := by
  constructor
  · intro e a b c d p hp v hv
    have hmap : ∃ l : List AenetTrainParser.NpVal,
        p.2 = l.map AenetTrainParser.npNanChecked := by
      simp only [AenetTrainParser.convertResults, List.mem_cons,
        List.not_mem_nil, or_false] at hp
      rcases hp with h | h | h | h | h <;> rw [h] <;> exact ⟨_, rfl⟩
    obtain ⟨l, hl⟩ := hmap
    rw [hl] at hv
    obtain ⟨x, _, hx⟩ := List.mem_map.mp hv
    obtain ⟨s, hs⟩ := npNanChecked_string x
    exact ⟨s, by rw [← hx, hs]⟩
  · rfl

/-- C10 witness: a NaN entry of the train-MAE array is returned as the
string `"NaN"`. -/
theorem aenet_c10_witness :
    ∃ s, AenetTrainParser.npNanChecked AenetTrainParser.NpVal.fnan =
      PyVal.str s :=
  aenet_c10.1 [AenetTrainParser.NpVal.i 1] [AenetTrainParser.NpVal.fnan]
    [] [] []
    ("train_mae", [AenetTrainParser.npNanChecked AenetTrainParser.NpVal.fnan])
    (by decide)
    (AenetTrainParser.npNanChecked AenetTrainParser.NpVal.fnan) (by decide)
